import Mathlib

/-!
Shallow embedding of the AWS_BDA document-processing pipeline.

The embedding covers the parts of the repository exercised by the claims:
  * `src/src/bda_pipeline/output.py` — result normalization (`_normalize_value`,
    `_normalize_record`, `FIELD_JOIN_RULES`) and the storage read-back path
    (`ResultAggregator._iter_job_records`, `_load_json_lines`, `build_csv`);
  * `src/utils.py` — the job poller (`wait_for_job_completion`), result
    extraction (`extract_results_from_response`) and configuration validation
    (`validate_config`);
  * `src/process_documents.py` — the per-document worker
    (`invoke_document_processing`, `process_single_document`), the batch
    dispatcher (`process_documents_batch`) and the CSV exporter
    (`export_results_to_csv`, including its summary statistics).

Modelling conventions:
  * Python JSON values are modelled by `PyVal` (JSON numbers are modelled as
    integers; no claim exercises fractional payload values).
  * The Python standard-library JSON parser is an external collaborator; a
    stored artifact is therefore carried together with the result of
    `json.loads` on it (`Option PyVal`, `none` meaning a syntax error).
  * Remote AWS calls are external collaborators, modelled as oracles passed in
    as function arguments (a submission oracle and a per-call status oracle).
  * Wall-clock time in the poll loop is modelled discretely: a status query is
    instantaneous and each `time.sleep(poll_interval)` advances elapsed time by
    `poll_interval`.  The loop is written with explicit fuel; the fuel bound
    `timeout / poll_interval + 2` is exactly the number of loop iterations the
    source can perform when the poll interval is positive.
-/

/-- Python/JSON values as they appear in BDA responses and stored artifacts.
Numbers are modelled as integers (no claim involves fractional values);
mappings are association lists. -/
inductive PyVal where
  | null : PyVal
  | str (s : String) : PyVal
  | int (n : Int) : PyVal
  | bool (b : Bool) : PyVal
  | list (xs : List PyVal) : PyVal
  | dict (m : List (String × PyVal)) : PyVal

/-- Python `str(value)` on the values a record cell can hold.  Faithful on the
scalar cases (`str(True) = "True"`, `str(None) = "None"`, integer repr); the
rendering of a mapping is an opaque placeholder, not exercised by any claim
(the source only reaches `str` on scalars after list elements are recursed
into). -/
def pyStr : PyVal → String
  | .null => "None"
  | .str s => s
  | .int n => toString n
  | .bool true => "True"
  | .bool false => "False"
  | .list _ => "<list>"
  | .dict _ => "<dict>"

/-- `FIELD_JOIN_RULES` from `output.py`: the one designated field using a bare
comma separator. -/
def FIELD_JOIN_RULES : List (String × String) := [("LogoOnForm", ",")]

/-- The separator `FIELD_JOIN_RULES.get(field_name, ", ")` resolves to for a
given (optional) field name. -/
def joinRule (field : Option String) : String :=
  (field.bind (fun f => FIELD_JOIN_RULES.lookup f)).getD ", "

mutual

/-- `_normalize_value` from `output.py`: `None` renders empty, a list joins the
normalized forms of its elements (dropping empty ones) with the field's
separator, and any other value renders via `str`. -/
def normalize_value (field : Option String) : PyVal → String
  | .null => ""
  | .list xs => (joinRule field).intercalate (normItems field xs)
  | v => pyStr v

/-- The `normalized_items` accumulation loop inside `_normalize_value`:
normalize each element, keeping only the non-empty results, in order. -/
def normItems (field : Option String) : List PyVal → List String
  | [] => []
  | x :: rest =>
    let n := normalize_value field x
    if n = "" then normItems field rest else n :: normItems field rest

end

/-- A row produced by the aggregator read path: field name to normalized
string value (`_normalize_record`'s output shape). -/
abbrev AggRow := List (String × String)

/-- `_normalize_record` from `output.py`: normalize every value of a record
under its own key's join rule. -/
def normalize_record (m : List (String × PyVal)) : AggRow :=
  m.map (fun kv => (kv.1, normalize_value (some kv.1) kv.2))

/-- One physical line of a `.jsonl` artifact as seen by `iter_lines`: either
empty bytes (skipped by the `if not line` guard) or content carried together
with the result of `json.loads` on it (`none` = syntax error). -/
inductive JsonLine where
  | blank : JsonLine
  | content (parsed : Option PyVal) : JsonLine

/-- One stored object listed under the output prefix.  The body is carried in
both forms the source reads it in: split into lines (for the `.jsonl` branch)
and parsed whole (for the `.json` branch, `none` = syntax error). -/
structure S3Object where
  key : String
  lines : List JsonLine
  whole : Option PyVal

/-- `ResultAggregator._load_json_lines`: skip empty lines, parse each remaining
line (a parse failure raises, modelled as `Except.error`), and yield the lines
that parse to mappings. -/
def load_json_lines : List JsonLine → Except String (List AggRow)
  | [] => .ok []
  | .blank :: rest => load_json_lines rest
  | .content none :: _ => .error "JSONDecodeError"
  | .content (some d) :: rest => do
    let tail ← load_json_lines rest
    match d with
    | .dict m => .ok (normalize_record m :: tail)
    | _ => .ok tail

/-- Python `s.endswith(sfx)`, computed on character sequences (the library
`String.endsWith` is byte-position based and does not reduce in the kernel;
the two agree on all strings). -/
def strEndsWith (s sfx : String) : Bool :=
  sfx.data.isSuffixOf s.data

/-- The per-object body of `ResultAggregator._iter_job_records`: a `.jsonl`
key streams line records, a `.json` key is parsed whole (a top-level list
yields its mapping elements, a mapping yields one record, anything else
nothing), other keys are ignored.  A parse failure raises, modelled as
`Except.error`. -/
def objRecords (obj : S3Object) : Except String (List AggRow) :=
  if strEndsWith obj.key ".jsonl" then
    load_json_lines obj.lines
  else if strEndsWith obj.key ".json" then
    match obj.whole with
    | none => .error "JSONDecodeError"
    | some (.list items) =>
      .ok (items.filterMap (fun item =>
        match item with
        | .dict m => some (normalize_record m)
        | _ => none))
    | some (.dict m) => .ok [normalize_record m]
    | some _ => .ok []
  else
    .ok []

/-- `ResultAggregator._iter_job_records`: walk the listed objects, yielding the
records of each in turn; a raised parse error propagates and ends the
iteration.  Pagination is abstracted into the flat input list. -/
def iter_job_records : List S3Object → Except String (List AggRow)
  | [] => .ok []
  | obj :: rest => do
    let here ← objRecords obj
    let tail ← iter_job_records rest
    .ok (here ++ tail)

/-- Lookup of a key in an aggregator row (`record.get(field, "")` uses the
first binding; Python dicts have unique keys). -/
def rowGet (r : AggRow) (k : String) : Option String :=
  (r.find? (fun kv => kv.1 = k)).map (fun kv => kv.2)

/-- `ResultAggregator.build_csv`: force all records from the read path (a parse
error aborts before anything is written), then emit the given fieldnames as
header and, per record, `record.get(field, "")` for each fieldname. -/
def build_csv (objects : List S3Object) (fieldnames : List String) :
    Except String (List String × List (List String)) := do
  let records ← iter_job_records objects
  .ok (fieldnames, records.map (fun r => fieldnames.map (fun f => (rowGet r f).getD "")))

/-- The `output` member of a BDA status response as `extract_results_from_response`
sees it: either a JSON value that is not a string, or a string carried together
with the result of `json.loads` on it (`none` = syntax error, in which case the
source keeps working with the raw string). -/
inductive OutputVal where
  | parsed (v : PyVal) : OutputVal
  | rawStr (s : String) (parse : Option PyVal) : OutputVal

/-- A response from `get_data_automation_status`, restricted to the members the
source reads: `status`, `error`, `outputConfiguration.s3Uri` and `output`
(all accessed with `.get`, hence optional). -/
structure JobResponse where
  status : Option String
  error : Option String
  outputS3Uri : Option String
  output : Option OutputVal

/-- The observable behavior of one `get_data_automation_status` call: either the
call raises a `ClientError` (carrying its message) or it returns a response. -/
inductive PollStep where
  | clientError (msg : String) : PollStep
  | response (resp : JobResponse) : PollStep

/-- Terminal result of the poll loop, instrumented with the number of status
queries issued.  `success`/`failed`/`timedOut` correspond to the source
returning the response, raising `RuntimeError`, and raising `TimeoutError`;
`outOfFuel` is a modelling artifact that is unreachable whenever the poll
interval is positive (the fuel bound covers every iteration the source can
perform). -/
inductive WaitResult where
  | success (resp : JobResponse) (polls : Nat) : WaitResult
  | failed (msg : String) (polls : Nat) : WaitResult
  | timedOut (polls : Nat) (elapsed : Nat) : WaitResult
  | outOfFuel (polls : Nat) : WaitResult

/-- The `while True` body of `wait_for_job_completion`, fuel-indexed.  `k` is
the number of status queries issued so far and `elapsed` the wall-clock time
since the first iteration (queries are instantaneous, each sleep adds the poll
interval).  The timeout is checked before each query; a `ClientError` from the
query is logged and followed by sleep-and-retry; `SUCCESS` returns the
response, `FAILED` raises, a recognized pending status and any unrecognized
status both sleep and retry. -/
def waitLoop (steps : Nat → PollStep) (poll_interval timeout : Nat) :
    Nat → Nat → Nat → WaitResult
  | 0, k, _ => .outOfFuel k
  | fuel + 1, k, elapsed =>
    if elapsed > timeout then
      .timedOut k elapsed
    else
      match steps k with
      | .clientError _ =>
        waitLoop steps poll_interval timeout fuel (k + 1) (elapsed + poll_interval)
      | .response resp =>
        if resp.status = some "SUCCESS" then
          .success resp (k + 1)
        else if resp.status = some "FAILED" then
          .failed ((resp.error).getD "Unknown error") (k + 1)
        else if resp.status = some "IN_PROGRESS" ∨ resp.status = some "PENDING" then
          waitLoop steps poll_interval timeout fuel (k + 1) (elapsed + poll_interval)
        else
          waitLoop steps poll_interval timeout fuel (k + 1) (elapsed + poll_interval)

/-- `wait_for_job_completion` from `utils.py` over a status-query oracle
`steps` (one entry per issued query).  The fuel `timeout / poll_interval + 2`
is exactly the number of iterations available before the elapsed time exceeds
the timeout when the interval is positive. -/
def wait_for_job_completion (steps : Nat → PollStep) (poll_interval timeout : Nat) :
    WaitResult :=
  waitLoop steps poll_interval timeout (timeout / poll_interval + 2) 0 0

/-- A worker-level result record from `process_documents.py`/`utils.py`: a
Python dict from column name to value, as an association list. -/
abbrev Record := List (String × PyVal)

/-- Python `record.get(key)`: the first binding for the key, if any. -/
def rget (r : Record) (k : String) : Option PyVal :=
  (r.find? (fun kv => kv.1 = k)).map (fun kv => kv.2)

/-- Python `record[key] = v`: replace the existing binding or append a new one. -/
def rset (r : Record) (k : String) (v : PyVal) : Record :=
  if (r.find? (fun kv => kv.1 = k)).isSome then
    r.map (fun kv => if kv.1 = k then (kv.1, v) else kv)
  else
    r ++ [(k, v)]

/-- The ten extraction fields `extract_results_from_response` copies out of the
output payload. -/
def schemaFields : List String :=
  ["SiteOnForm", "NameOnForm", "LogoOnForm", "EmailOnForm", "PhoneOnForm",
   "AddressOnForm", "SignatureOnForm", "LOB", "State", "Language"]

/-- The error record `extract_results_from_response` builds in its exception
handler (the message text of the caught `AttributeError` is abbreviated; no
claim reads it). -/
def extractErrorRecord (document_key msg : String) : Record :=
  [("document", .str document_key), ("processing_status", .str "error"),
   ("error_message", .str msg)]

/-- `extract_results_from_response` from `utils.py`: start from
`document`/`processing_status = success`, add `output_s3_uri` when the response
carries an output location, then copy each schema field from the `output`
payload (missing fields default to the empty string).  When `output` is a
string, `json.loads` is attempted; on parse failure the value stays a string.
Calling `.get` on a non-mapping raises `AttributeError`, which the enclosing
handler converts into an error record. -/
def extract_results_from_response (resp : JobResponse) (document_key : String) :
    Record :=
  let base : Record :=
    [("document", .str document_key), ("processing_status", .str "success")]
  let base : Record :=
    match resp.outputS3Uri with
    | some u => base ++ [("output_s3_uri", .str u)]
    | none => base
  match resp.output with
  | none => base
  | some ov =>
    let odata : Option PyVal :=
      match ov with
      | .parsed v => some v
      | .rawStr _ (some v) => some v
      | .rawStr _ none => none
    match odata with
    | some (.dict m) =>
      base ++ schemaFields.map (fun f =>
        (f, ((m.find? (fun kv => kv.1 = f)).map (fun kv => kv.2)).getD (.str "")))
    | _ => extractErrorRecord document_key "AttributeError: object has no attribute get"

/-- The `aws` section of the YAML configuration as `validate_config` reads it. -/
structure AwsSection where
  region : Option String

/-- A configuration section carrying a `name` member (`blueprint`, `project`). -/
structure NamedSection where
  name : Option String

/-- The `processing` section.  `validate_config` never reads its members; they
are carried so that invalid settings can be exhibited.  Durations are modelled
as naturals (nonpositive means zero). -/
structure ProcessingSection where
  batch_size : Nat
  poll_interval : Nat
  timeout : Nat

/-- The configuration mapping, restricted to what `validate_config` touches.
A `none` section models a missing key. -/
structure Config where
  aws : Option AwsSection
  blueprint : Option NamedSection
  project : Option NamedSection
  s3 : Option Unit
  processing : Option ProcessingSection

/-- `validate_config` from `utils.py`: require the five sections to be present,
then require `aws.region`, `blueprint.name` and `project.name` to be truthy
(present and non-empty).  A violation raises `ValueError`, modelled as
`Except.error`.  No member of the `processing` section is inspected. -/
def validate_config (config : Config) : Except String Unit := do
  match config.aws with
  | none => .error "Missing required configuration section: aws"
  | some awsSection =>
  match config.blueprint with
  | none => .error "Missing required configuration section: blueprint"
  | some blueprintSection =>
  match config.project with
  | none => .error "Missing required configuration section: project"
  | some projectSection =>
  match config.s3 with
  | none => .error "Missing required configuration section: s3"
  | some _ =>
  match config.processing with
  | none => .error "Missing required configuration section: processing"
  | some _ =>
  match awsSection.region with
  | none => .error "AWS region not specified in configuration"
  | some r =>
  if r = "" then .error "AWS region not specified in configuration" else
  match blueprintSection.name with
  | none => .error "Blueprint name not specified in configuration"
  | some b =>
  if b = "" then .error "Blueprint name not specified in configuration" else
  match projectSection.name with
  | none => .error "Project name not specified in configuration"
  | some p =>
  if p = "" then .error "Project name not specified in configuration" else
  .ok ()

/-- The BDA runtime client as the worker uses it: a submission oracle
(`invoke_data_automation_async`, returning an invocation ARN or raising a
`ClientError` with a message) and, per invocation ARN, a status-query oracle
for the poll loop. -/
structure RuntimeClient where
  submit : String → Except String String
  steps : String → Nat → PollStep

/-- Python equality between an optional record member and a string literal
(`value == "lit"` is false for a missing member and for any non-string value). -/
def optValEqStr (v : Option PyVal) (lit : String) : Bool :=
  match v with
  | some (.str s) => s = lit
  | _ => false

/-- Read a string out of a record member the source indexes directly on a path
where it is known to be present and a string. -/
def asStr : Option PyVal → String
  | some (.str s) => s
  | _ => ""

/-- `invoke_document_processing` from `process_documents.py`: one submission
call; on success a record with the invocation ARN and status `submitted`, on
`ClientError` a record with status `error` carrying the error text. -/
def invoke_document_processing (submit : String → Except String String)
    (s3_uri : String) : Record :=
  match submit s3_uri with
  | .ok arn =>
    [("invocationArn", .str arn), ("s3_uri", .str s3_uri), ("status", .str "submitted")]
  | .error e =>
    [("s3_uri", .str s3_uri), ("status", .str "error"), ("error", .str e)]

/-- The error record shape shared by the worker's failure paths and the batch
dispatcher's catch-all handler. -/
def workerErrorRecord (document_name s3_uri msg : String) : Record :=
  [("document", .str document_name), ("s3_uri", .str s3_uri),
   ("processing_status", .str "error"), ("error_message", .str msg)]

/-- The S3 URI `f"s3://{bucket}/{key}"` built by the worker. -/
def s3Uri (bucket key : String) : String :=
  "s3://" ++ bucket ++ "/" ++ key

/-- Python `key.split("/")[-1]`: the characters after the last slash (the
whole key when no slash occurs), computed on character sequences. -/
def lastComponent (key : String) : String :=
  String.mk ((key.data.reverse.takeWhile (fun c => c ≠ '/')).reverse)

/-- `process_single_document` from `process_documents.py`, instrumented with
the number of status queries issued.  A submission error returns immediately
(zero queries); otherwise the poll loop runs and its raised `RuntimeError` /
`TimeoutError` are converted by the enclosing handler into error records
carrying the exception text.  The `outOfFuel` branch is a modelling artifact,
unreachable for a positive poll interval. -/
def process_single_document (client : RuntimeClient) (poll_interval timeout : Nat)
    (bucket key : String) : Record × Nat :=
  let s3_uri := s3Uri bucket key
  let document_name := lastComponent key
  let invocation := invoke_document_processing client.submit s3_uri
  if optValEqStr (rget invocation "status") "error" then
    (workerErrorRecord document_name s3_uri (asStr (rget invocation "error")), 0)
  else
    let invocation_arn := asStr (rget invocation "invocationArn")
    match wait_for_job_completion (client.steps invocation_arn) poll_interval timeout with
    | .success resp polls =>
      (rset (extract_results_from_response resp document_name) "s3_uri" (.str s3_uri), polls)
    | .failed msg polls =>
      (workerErrorRecord document_name s3_uri ("Job failed: " ++ msg), polls)
    | .timedOut polls _ =>
      (workerErrorRecord document_name s3_uri
        ("Job processing exceeded timeout of " ++ toString timeout ++ " seconds"), polls)
    | .outOfFuel polls =>
      (workerErrorRecord document_name s3_uri "model artifact: poll loop fuel exhausted", polls)

/-- `process_documents_batch` from `process_documents.py` over an abstract
worker.  The thread pool of `batch_size` workers only influences the order in
which `as_completed` delivers futures, so scheduling is abstracted into
`completionOrder` (constrained to a permutation of the input documents in the
theorems); `batch_size` itself has no further observable effect.  A worker
returning `Except.error` models an unexpected exception escaping the worker,
caught at the `future.result()` boundary and converted to the catch-all error
record. -/
def process_documents_batch (batch_size : Nat) (bucket : String)
    (worker : String → Except String (Record × Nat))
    (completionOrder : List String) : List Record :=
  let _ := batch_size
  completionOrder.map (fun doc_key =>
    match worker doc_key with
    | .ok (r, _) => r
    | .error e =>
      workerErrorRecord (lastComponent doc_key) (s3Uri bucket doc_key) e)

/-- The pipeline's worker as the dispatcher submits it, with an oracle `defect`
marking documents whose worker raises unexpectedly (carrying the exception
text). -/
def pipelineWorker (client : RuntimeClient) (poll_interval timeout : Nat)
    (bucket : String) (defect : String → Option String) :
    String → Except String (Record × Nat) :=
  fun key =>
    match defect key with
    | some e => .error e
    | none => .ok (process_single_document client poll_interval timeout bucket key)

/-- `base_columns` from `export_results_to_csv`. -/
def base_columns : List String :=
  ["document", "SiteOnForm", "NameOnForm", "LogoOnForm", "EmailOnForm",
   "PhoneOnForm", "AddressOnForm", "SignatureOnForm", "LOB", "State", "Language"]

/-- `metadata_columns` from `export_results_to_csv` (when metadata is enabled). -/
def metadata_columns : List String :=
  ["s3_uri", "processing_status", "error_message", "output_s3_uri"]

/-- The columns of `pd.DataFrame(results)`: the keys occurring in the records.
Only membership in this list is ever used (pandas `in df.columns`), so
duplicates are immaterial. -/
def dfColumns (results : List Record) : List String :=
  results.flatMap (fun r => r.map (fun kv => kv.1))

/-- The exported table: header and one list of cell values per input record. -/
structure CsvTable where
  header : List String
  rows : List (List PyVal)

/-- The table-shaping part of `export_results_to_csv`: build the DataFrame,
append any missing base column (`df[col] = ""`), order columns as
`base_columns ++ metadata_columns` restricted to columns actually present, and
replace missing values with the empty string (`fillna("")`, which also maps a
stored Python `None` to the empty string). -/
def export_results_to_csv (results : List Record) (include_metadata : Bool) :
    CsvTable :=
  let cols := dfColumns results
  let colsEnsured := cols ++ base_columns.filter (fun c => ¬ c ∈ cols)
  let meta := if include_metadata then metadata_columns else []
  let header := (base_columns ++ meta).filter (fun c => c ∈ colsEnsured)
  { header := header
    rows := results.map (fun r => header.map (fun c =>
      match rget r c with
      | some .null => .str ""
      | some v => v
      | none => .str "")) }

/-- Index of a column in a header. -/
def colIndex (header : List String) (c : String) : Option Nat :=
  header.findIdx? (fun x => x = c)

/-- The cell of row `i` at column `c` of a table. -/
def cellOf (tbl : CsvTable) (i : Nat) (c : String) : Option PyVal :=
  (tbl.rows.get? i).bind (fun row => (colIndex tbl.header c).bind (fun j => row.get? j))

/-- Whether a record counts as successful in the summary
(`r.get("processing_status") == "success"`; a missing key or a non-string value
compares unequal in Python). -/
def isSuccessRecord (r : Record) : Bool :=
  match rget r "processing_status" with
  | some (.str s) => s = "success"
  | _ => false

/-- The summary block printed by `export_results_to_csv`. -/
structure Summary where
  total : Nat
  successful : Nat
  failedCount : Nat
  successPct : ℚ
  failedPct : ℚ
deriving DecidableEq

/-- The summary-statistics tail of `export_results_to_csv`.  The percentages
`successful / total_docs * 100` and `failed / total_docs * 100` are computed
unconditionally; with zero records Python raises `ZeroDivisionError`, modelled
as `Except.error`.  Python float arithmetic is modelled in exact rationals;
at the values the claims exercise the one-decimal formatted output agrees. -/
def summaryStats (results : List Record) : Except String Summary :=
  let total := results.length
  let successful := (results.filter isSuccessRecord).length
  let failedCount := total - successful
  if total = 0 then .error "ZeroDivisionError: division by zero"
  else
    .ok { total := total, successful := successful, failedCount := failedCount,
          successPct := (successful : ℚ) / (total : ℚ) * 100,
          failedPct := (failedCount : ℚ) / (total : ℚ) * 100 }

/-- Classification of one poll-loop iteration's behavior, read off the status
query's result: return the response, raise on a reported failure, or sleep and
retry (covering a `ClientError` from the query, the recognized pending
statuses, and any unrecognized status alike). -/
inductive StepAction where
  | giveSuccess (resp : JobResponse) : StepAction
  | giveFailed (msg : String) : StepAction
  | retry : StepAction

/-- The action the poll loop takes for a given query result. -/
def stepAction : PollStep → StepAction
  | .clientError _ => .retry
  | .response resp =>
    if resp.status = some "SUCCESS" then .giveSuccess resp
    else if resp.status = some "FAILED" then .giveFailed ((resp.error).getD "Unknown error")
    else .retry

/-- A status-query oracle that always reports a non-terminal status. -/
def c4steps : Nat → PollStep :=
  fun _ => .response { status := some "IN_PROGRESS", error := none,
                       outputS3Uri := none, output := none }

/-- A status-query oracle that always reports an unrecognized status value. -/
def c9steps : Nat → PollStep :=
  fun _ => .response { status := some "TRANSCRIBING", error := none,
                       outputS3Uri := none, output := none }

/-- A successful status response carrying one populated schema field, used by
the concrete partial-failure scenario. -/
def okResp : JobResponse :=
  { status := some "SUCCESS", error := none, outputS3Uri := some "s3://b/docs/output/",
    output := some (.parsed (.dict [("SiteOnForm", .str "x")])) }

/-- A runtime client for the three-document partial-failure scenario: document
2's submission raises a `ClientError`, every other submission succeeds and the
first status query reports success. -/
def c6client : RuntimeClient :=
  { submit := fun u => if u = "s3://b/docs/d2.pdf" then .error "AccessDenied" else .ok ("arn-" ++ u)
    steps := fun _ _ => .response okResp }

/-- The three-document batch of the partial-failure scenario, in submission
order. -/
def c6results : List Record :=
  process_documents_batch 2 "b" (pipelineWorker c6client 1 10 "b" (fun _ => none))
    ["docs/d1.pdf", "docs/d2.pdf", "docs/d3.pdf"]

/-- The exported table of the partial-failure scenario, metadata enabled. -/
def c6table : CsvTable := export_results_to_csv c6results true

/-- A single successful worker record (no error message, output location
present), exhibiting a metadata column that is absent from every record. -/
def c10record : Record := (process_single_document c6client 1 10 "b" "docs/d1.pdf").1

/-- A well-formed stored artifact: one JSON object with one field. -/
def goodObject : S3Object :=
  { key := "out/a.json", lines := [], whole := some (.dict [("F", .str "v")]) }

/-- A malformed stored artifact: the body does not parse as JSON. -/
def badObject : S3Object :=
  { key := "out/b.json", lines := [], whole := none }

/-- A configuration whose five required sections are present and whose region,
blueprint and project names are set, but whose processing settings violate
every condition the claim lists: concurrency 0, poll interval 0, and poll
interval equal to (hence not below) the timeout. -/
def invalidProcessingConfig : Config :=
  { aws := some { region := some "us-east-1" }
    blueprint := some { name := some "bp" }
    project := some { name := some "pj" }
    s3 := some ()
    processing := some { batch_size := 0, poll_interval := 0, timeout := 0 } }

/-- A result record marked successful. -/
def successRecord : Record := [("processing_status", .str "success")]

/-- A result record marked failed. -/
def errorRecord : Record := [("processing_status", .str "error")]

/-- Ten result records of which seven are successful. -/
def tenRecords : List Record :=
  [successRecord, successRecord, successRecord, successRecord, successRecord,
   successRecord, successRecord, errorRecord, errorRecord, errorRecord]

/-- One unfolding of the poll loop, expressed through `stepAction`. -/
theorem waitLoop_succ (steps : Nat → PollStep) (i t fuel k e : Nat) :
    waitLoop steps i t (fuel + 1) k e =
      if e > t then .timedOut k e
      else
        match stepAction (steps k) with
        | .giveSuccess r => .success r (k + 1)
        | .giveFailed m => .failed m (k + 1)
        | .retry => waitLoop steps i t fuel (k + 1) (e + i) := by
  by_cases he : e > t
  · simp [waitLoop, he]
  · cases hs : steps k with
    | clientError m => simp [waitLoop, he, hs, stepAction]
    | response resp =>
      by_cases h1 : resp.status = some "SUCCESS"
      · simp [waitLoop, he, hs, stepAction, h1]
      · by_cases h2 : resp.status = some "FAILED"
        · simp [waitLoop, he, hs, stepAction, h1, h2]
        · by_cases h3 : resp.status = some "IN_PROGRESS" ∨ resp.status = some "PENDING"
          · simp [waitLoop, he, hs, stepAction, h1, h2, h3]
          · simp [waitLoop, he, hs, stepAction, h1, h2, h3]

/-- Two query oracles whose results are classified identically at every index
drive the poll loop to the same result. -/
theorem waitLoop_congr (steps stepsB : Nat → PollStep) (i t : Nat)
    (h : ∀ n, stepAction (steps n) = stepAction (stepsB n)) :
    ∀ fuel k e, waitLoop steps i t fuel k e = waitLoop stepsB i t fuel k e := by
  intro fuel
  induction fuel with
  | zero => intro k e; simp [waitLoop]
  | succ fuel ih =>
    intro k e
    rw [waitLoop_succ, waitLoop_succ, ← h k]
    by_cases he : e > t
    · simp [he]
    · simp only [he, if_false]
      cases stepAction (steps k) with
      | giveSuccess r => rfl
      | giveFailed m => rfl
      | retry => exact ih (k + 1) (e + i)

/-- Arithmetic fact behind the timeout bound: with a positive interval, the
elapsed time after `t / i + 1` sleeps strictly exceeds `t`. -/
theorem lt_div_add_one_mul (t i : Nat) (hi : 0 < i) : t < (t / i + 1) * i := by
  calc t = i * (t / i) + t % i := (Nat.div_add_mod t i).symm
    _ < i * (t / i) + i := Nat.add_lt_add_left (Nat.mod_lt t hi) _
    _ = (t / i + 1) * i := by ring

/-- If every query result leads to sleep-and-retry, the poll loop with a
positive interval reaches the timeout after exactly `t / i + 1` queries. -/
theorem waitLoop_allRetry (steps : Nat → PollStep) (i t : Nat) (hi : 0 < i)
    (hs : ∀ j, stepAction (steps j) = .retry) :
    ∀ fuel k, k ≤ t / i + 1 → t / i + 2 ≤ fuel + k →
      waitLoop steps i t fuel k (k * i) = .timedOut (t / i + 1) ((t / i + 1) * i) := by
  intro fuel
  induction fuel with
  | zero => intro k hk hf; exfalso; omega
  | succ fuel ih =>
    intro k hk hf
    rcases Nat.lt_or_ge k (t / i + 1) with hlt | hge
    · have hk' : k ≤ t / i := by omega
      have hel : k * i ≤ t :=
        le_trans (Nat.mul_le_mul_right i hk') (Nat.div_mul_le_self t i)
      have hne : ¬ k * i > t := by omega
      rw [waitLoop_succ, if_neg hne, hs k]
      rw [show k * i + i = (k + 1) * i by ring]
      exact ih (k + 1) (by omega) (by omega)
    · have hkeq : k = t / i + 1 := le_antisymm hk hge
      subst hkeq
      have hgt : (t / i + 1) * i > t := lt_div_add_one_mul t i hi
      rw [waitLoop_succ, if_pos hgt]

/-- Top-level form of the previous lemma: with a positive interval and every
query answered by a retry-classified result, `wait_for_job_completion` times
out after exactly `t / i + 1` queries, at elapsed time `(t / i + 1) * i`. -/
theorem wait_allRetry (steps : Nat → PollStep) (i t : Nat) (hi : 0 < i)
    (hs : ∀ j, stepAction (steps j) = .retry) :
    wait_for_job_completion steps i t = .timedOut (t / i + 1) ((t / i + 1) * i) := by
  unfold wait_for_job_completion
  have h := waitLoop_allRetry steps i t hi hs (t / i + 2) 0 (Nat.zero_le _)
    (by omega : t / i + 2 ≤ t / i + 2 + 0)
  simpa using h

/-- Claim C4: the job poller evaluates the wall-clock timeout before each poll
attempt; for a job whose status never leaves a non-terminal value, the run
with a positive poll interval produces exactly one timed-out outcome, after
exactly `timeout / poll_interval + 1` status queries — the queries issued at
the elapsed instants up to the timeout — and the elapsed time recorded in the
outcome strictly exceeds the timeout, so no query is issued after the timeout
is exceeded. -/
theorem claim_C4 (steps : Nat → PollStep) (i t : Nat) (hi : 0 < i)
    (hq : ∀ j, ∃ r, steps j = .response r ∧
      r.status ≠ some "SUCCESS" ∧ r.status ≠ some "FAILED") :
    wait_for_job_completion steps i t = .timedOut (t / i + 1) ((t / i + 1) * i) ∧
    t < (t / i + 1) * i := by
  have hs : ∀ j, stepAction (steps j) = .retry := by
    intro j
    obtain ⟨r, hr, h1, h2⟩ := hq j
    rw [hr]
    simp [stepAction, h1, h2]
  exact ⟨wait_allRetry steps i t hi hs, lt_div_add_one_mul t i hi⟩

/-- Witness for claim C4 at poll interval 2 and timeout 5: the poller times out
after exactly 3 queries, at elapsed time 6 > 5. -/
theorem claim_C4_witness :
    wait_for_job_completion c4steps 2 5 = .timedOut 3 6 ∧ 5 < 6 :=
  claim_C4 c4steps 2 5 (by decide)
    (fun _ => ⟨{ status := some "IN_PROGRESS", error := none,
                 outputS3Uri := none, output := none }, rfl, by decide, by decide⟩)

/-- Claim C8: a transient `ClientError` from a status query never terminates
the poll loop: when every query raises, the positive-interval poller still
runs to its timeout and yields the timed-out outcome (never a propagated query
error), issuing `timeout / poll_interval + 1` queries — at least two of them,
i.e. at least one sleep-and-retry, whenever the interval fits inside the
timeout. -/
theorem claim_C8 (steps : Nat → PollStep) (i t : Nat) (hi : 0 < i)
    (hq : ∀ j, ∃ m, steps j = .clientError m) :
    wait_for_job_completion steps i t = .timedOut (t / i + 1) ((t / i + 1) * i) ∧
    (i ≤ t → 2 ≤ t / i + 1) := by
  have hs : ∀ j, stepAction (steps j) = .retry := by
    intro j
    obtain ⟨m, hm⟩ := hq j
    rw [hm]
    rfl
  refine ⟨wait_allRetry steps i t hi hs, fun hit => ?_⟩
  have h1 : 1 ≤ t / i := (Nat.one_le_div_iff hi).mpr hit
  omega

/-- Witness for claim C8 at poll interval 2 and timeout 5 with every query
raising: the outcome is the timeout after 3 queries. -/
theorem claim_C8_witness :
    wait_for_job_completion (fun _ => .clientError "throttled") 2 5 = .timedOut 3 6 ∧
    (2 ≤ 5 → 2 ≤ 3) :=
  claim_C8 (fun _ => .clientError "throttled") 2 5 (by decide)
    (fun _ => ⟨"throttled", rfl⟩)

/-- Claim C9: a status query returning a value outside the recognized set
(SUCCESS, FAILED, IN_PROGRESS, PENDING) is treated exactly as a non-terminal
status: the poll loop's result is unchanged if that response's status is
replaced by PENDING — the poller sleeps the same interval and re-polls rather
than failing the run. -/
theorem claim_C9 (steps : Nat → PollStep) (j : Nat) (r : JobResponse) (i t : Nat)
    (hj : steps j = .response r)
    (h1 : r.status ≠ some "SUCCESS") (h2 : r.status ≠ some "FAILED")
    (h3 : r.status ≠ some "IN_PROGRESS") (h4 : r.status ≠ some "PENDING") :
    wait_for_job_completion steps i t =
      wait_for_job_completion
        (fun n => if n = j then .response { r with status := some "PENDING" } else steps n)
        i t := by
  unfold wait_for_job_completion
  apply waitLoop_congr
  intro n
  by_cases hn : n = j
  · subst hn
    rw [hj]
    simp [stepAction, h1, h2]
  · simp [hn]

/-- Witness for claim C9: replacing the unrecognized status TRANSCRIBING of the
first query's response by PENDING leaves the poll result unchanged. -/
theorem claim_C9_witness :
    wait_for_job_completion c9steps 2 5 =
      wait_for_job_completion
        (fun n => if n = 0 then
            .response { status := some "PENDING", error := none,
                        outputS3Uri := none, output := none }
          else c9steps n)
        2 5 :=
  claim_C9 c9steps 0
    { status := some "TRANSCRIBING", error := none, outputS3Uri := none, output := none }
    2 5 rfl (by decide) (by decide) (by decide) (by decide)

/-- The element-accumulation loop of the normalizer keeps exactly the non-empty
normalized element strings, in order. -/
theorem normItems_eq_filter (field : Option String) (xs : List PyVal) :
    normItems field xs = (xs.map (normalize_value field)).filter (fun s => s ≠ "") := by
  induction xs with
  | nil => rfl
  | cons x rest ih =>
    by_cases h : normalize_value field x = ""
    · simp [normItems, h, ih]
    · simp [normItems, h, ih]

/-- Claim C7: normalizing a multi-valued field drops the elements whose
normalized form is empty and joins the rest with the field's configured
separator — the default separator is a comma-space, the one designated field
LogoOnForm uses a bare comma — so no stray separators appear; the example list
normalizes to a comma-space join under the default rule and to a bare-comma
join for LogoOnForm, and scalar values render via their natural string form. -/
theorem claim_C7 :
    (∀ (field : Option String) (xs : List PyVal),
      normalize_value field (.list xs) =
        (joinRule field).intercalate
          ((xs.map (normalize_value field)).filter (fun s => s ≠ ""))) ∧
    normalize_value (some "SiteOnForm") (.list [.str "a", .str "", .str "b"]) = "a, b" ∧
    normalize_value (some "LogoOnForm") (.list [.str "a", .str "", .str "b"]) = "a,b" ∧
    joinRule (some "LogoOnForm") = "," ∧
    (∀ f, f ≠ "LogoOnForm" → joinRule (some f) = ", ") ∧
    (∀ s, normalize_value none (.str s) = s) ∧
    normalize_value none (.int 5) = "5" ∧
    normalize_value none (.bool true) = "True" := by
  refine ⟨?_, rfl, rfl, rfl, ?_, fun s => rfl, rfl, rfl⟩
  · intro field xs
    rw [show normalize_value field (.list xs)
          = (joinRule field).intercalate (normItems field xs) from rfl]
    rw [normItems_eq_filter]
  · intro f hf
    have hb : (f == "LogoOnForm") = false := beq_eq_false_iff_ne.mpr hf
    simp [joinRule, FIELD_JOIN_RULES, List.lookup, hb]

/-- Witness for claim C7's quantified parts, at a concrete non-designated
field. -/
theorem claim_C7_witness : joinRule (some "State") = ", " :=
  claim_C7.2.2.2.2.1 "State" (by decide)

/-- Counterexample for claim C2: a listing with one well-formed JSON artifact
and one malformed artifact does not produce a row from the well-formed one —
the read aborts with the parse error, so `build_csv` yields no table at all. -/
theorem claim_C2_counterexample :
    iter_job_records [goodObject, badObject] = .error "JSONDecodeError" ∧
    build_csv [goodObject, badObject] ["F"] = .error "JSONDecodeError" := by
  constructor <;> rfl

/-- A listing containing the malformed artifact never yields records: the parse
error (or an earlier one) propagates out of the read. -/
theorem iter_job_records_bad_mem (objs : List S3Object) (h : badObject ∈ objs) :
    ∃ e, iter_job_records objs = .error e := by
  induction objs with
  | nil => cases h
  | cons o os ih =>
    rcases List.mem_cons.mp h with rfl | hmem
    · exact ⟨"JSONDecodeError", by rfl⟩
    · obtain ⟨e, he⟩ := ih hmem
      cases ho : objRecords o with
      | error e2 => exact ⟨e2, by simp [iter_job_records, ho, bind, Except.bind]⟩
      | ok here => exact ⟨e, by simp [iter_job_records, ho, he, bind, Except.bind]⟩

/-- Claim C2, amended: the read path is not tolerant of malformed artifacts.
A well-formed JSON object alone produces exactly its one row, but whenever a
syntactically invalid artifact appears among the listed objects the JSON parse
error propagates (nothing is skipped or logged-and-continued): the read aborts
and `build_csv` produces no rows, not even for the well-formed artifact. -/
theorem claim_C2 :
    iter_job_records [goodObject] = .ok [[("F", "v")]] ∧
    build_csv [goodObject] ["F"] = .ok (["F"], [["v"]]) ∧
    iter_job_records [goodObject, badObject] = .error "JSONDecodeError" ∧
    iter_job_records [badObject, goodObject] = .error "JSONDecodeError" ∧
    (∀ (objs : List S3Object) (fieldnames : List String), badObject ∈ objs →
      ∀ tbl, build_csv objs fieldnames ≠ .ok tbl) := by
  refine ⟨rfl, rfl, rfl, rfl, ?_⟩
  intro objs fieldnames hmem tbl hcontra
  obtain ⟨e, he⟩ := iter_job_records_bad_mem objs hmem
  rw [show build_csv objs fieldnames
        = (iter_job_records objs).bind (fun records =>
            .ok (fieldnames, records.map (fun r =>
              fieldnames.map (fun f => (rowGet r f).getD "")))) from rfl, he] at hcontra
  exact Except.noConfusion hcontra

/-- Witness for the quantified part of claim C2's amended statement. -/
theorem claim_C2_witness :
    badObject ∈ [goodObject, badObject] ∧
    ∀ tbl, build_csv [goodObject, badObject] ["F"] ≠ .ok tbl :=
  ⟨by simp, claim_C2.2.2.2.2 [goodObject, badObject] ["F"] (by simp)⟩

/-- Counterexample for claim C3: for a result list with 0 rows the summary
raises `ZeroDivisionError` instead of reporting a 0 percentage. -/
theorem claim_C3_counterexample :
    summaryStats [] = .error "ZeroDivisionError: division by zero" ∧
    ∀ s, summaryStats [] ≠ .ok s := by
  refine ⟨rfl, fun s h => Except.noConfusion h⟩

/-- Claim C3, amended: for every non-empty result list the summary divides the
success and failure counts by the row total (so 10 rows with 7 successes
report 70.0 percent successful and 30.0 percent failed), but for a result list
with 0 rows the percentage computation divides by zero and raises, rather than
reporting 0. -/
theorem claim_C3 :
    (∀ results : List Record, results ≠ [] →
      summaryStats results = .ok
        { total := results.length
          successful := (results.filter isSuccessRecord).length
          failedCount := results.length - (results.filter isSuccessRecord).length
          successPct :=
            ((results.filter isSuccessRecord).length : ℚ) / (results.length : ℚ) * 100
          failedPct :=
            ((results.length - (results.filter isSuccessRecord).length : Nat) : ℚ) /
              (results.length : ℚ) * 100 }) ∧
    summaryStats tenRecords =
      .ok { total := 10, successful := 7, failedCount := 3, successPct := 70, failedPct := 30 } ∧
    summaryStats [] = .error "ZeroDivisionError: division by zero" := by
  refine ⟨?_, ?_, rfl⟩
  · intro results h
    have hlen : ¬ results.length = 0 := fun hl => h (List.length_eq_zero.mp hl)
    simp [summaryStats, hlen]
  · have hcnt : (tenRecords.filter isSuccessRecord).length = 7 := rfl
    have hlen : tenRecords.length = 10 := rfl
    norm_num [summaryStats, hcnt, hlen]

/-- Witness for the quantified part of claim C3's amended statement, at the
ten-record table. -/
theorem claim_C3_witness :
    tenRecords ≠ [] ∧
    summaryStats tenRecords = .ok
      { total := tenRecords.length
        successful := (tenRecords.filter isSuccessRecord).length
        failedCount := tenRecords.length - (tenRecords.filter isSuccessRecord).length
        successPct :=
          ((tenRecords.filter isSuccessRecord).length : ℚ) / (tenRecords.length : ℚ) * 100
        failedPct :=
          ((tenRecords.length - (tenRecords.filter isSuccessRecord).length : Nat) : ℚ) /
            (tenRecords.length : ℚ) * 100 } :=
  ⟨by simp [tenRecords], claim_C3.1 tenRecords (by simp [tenRecords])⟩

/-- Counterexample for claim C5: a configuration with concurrency 0, poll
interval 0 and poll interval equal to the timeout — violating every condition
the claim says is fatally rejected — passes configuration validation. -/
theorem claim_C5_counterexample :
    validate_config invalidProcessingConfig = .ok () ∧
    invalidProcessingConfig.processing.map ProcessingSection.batch_size = some 0 ∧
    invalidProcessingConfig.processing.map ProcessingSection.poll_interval = some 0 ∧
    invalidProcessingConfig.processing.map ProcessingSection.timeout = some 0 := by
  exact ⟨rfl, rfl, rfl, rfl⟩

/-- Claim C5, amended: configuration validation checks only that the five
required sections are present and that the region, blueprint name and project
name are set and non-empty; the processing values are never inspected, so a
nonpositive concurrency limit, a nonpositive poll interval, or a poll interval
at or above the timeout is not rejected and does not fail the run before
document work starts. -/
theorem claim_C5 (cfg : Config) (awsSec : AwsSection) (bpSec pjSec : NamedSection)
    (r b p : String)
    (h1 : cfg.aws = some awsSec) (h2 : cfg.blueprint = some bpSec)
    (h3 : cfg.project = some pjSec) (h4 : cfg.s3.isSome = true)
    (h5 : cfg.processing.isSome = true)
    (hr : awsSec.region = some r) (hrne : r ≠ "")
    (hb : bpSec.name = some b) (hbne : b ≠ "")
    (hp : pjSec.name = some p) (hpne : p ≠ "") :
    validate_config cfg = .ok () := by
  obtain ⟨s3v, hs3⟩ := Option.isSome_iff_exists.mp h4
  obtain ⟨prv, hpr⟩ := Option.isSome_iff_exists.mp h5
  simp [validate_config, h1, h2, h3, hs3, hpr, hr, hb, hp, hrne, hbne, hpne]

/-- Witness for claim C5's amended statement: the concrete configuration with
invalid processing values is accepted. -/
theorem claim_C5_witness : validate_config invalidProcessingConfig = .ok () :=
  claim_C5 invalidProcessingConfig { region := some "us-east-1" }
    { name := some "bp" } { name := some "pj" } "us-east-1" "bp" "pj"
    rfl rfl rfl rfl rfl rfl (by decide) rfl (by decide) rfl (by decide)

/-- Looking up a key that is bound in a record after replacing that key's value
yields the new value. -/
theorem rget_mapset (r : Record) (k : String) (v : PyVal)
    (h : (rget r k).isSome = true) :
    rget (r.map (fun kv => if kv.1 = k then (kv.1, v) else kv)) k = some v := by
  induction r with
  | nil => simp [rget] at h
  | cons hd tl ih =>
    by_cases hh : hd.1 = k
    · simp [rget, List.find?, hh]
    · have h' : (rget tl k).isSome = true := by
        simpa [rget, List.find?, hh] using h
      simpa [rget, List.find?, hh] using ih h'

/-- Looking up a key that is unbound in a record after appending a binding for
it yields the appended value. -/
theorem rget_append_single (r : Record) (k : String) (v : PyVal)
    (h : rget r k = none) :
    rget (r ++ [(k, v)]) k = some v := by
  induction r with
  | nil => simp [rget, List.find?]
  | cons hd tl ih =>
    by_cases hh : hd.1 = k
    · simp [rget, List.find?, hh] at h
    · have h' : rget tl k = none := by
        simpa [rget, List.find?, hh] using h
      simpa [rget, List.find?, hh] using ih h'

/-- Assignment followed by lookup of the same key yields the assigned value. -/
theorem rget_rset (r : Record) (k : String) (v : PyVal) :
    rget (rset r k v) k = some v := by
  unfold rset
  by_cases h : ((r.find? (fun kv => kv.1 = k)).isSome : Bool) = true
  · rw [if_pos h]
    exact rget_mapset r k v (by simpa [rget] using h)
  · rw [if_neg h]
    have hn : r.find? (fun kv => kv.1 = k) = none :=
      Option.not_isSome_iff_eq_none.mp (by simpa using h)
    exact rget_append_single r k v (by simp [rget, hn])

/-- Every record the worker can return binds `s3_uri` to the document's URI,
whichever submission or polling path was taken. -/
theorem worker_s3_uri (client : RuntimeClient) (poll_interval timeout : Nat)
    (bucket key : String) :
    rget (process_single_document client poll_interval timeout bucket key).1 "s3_uri"
      = some (.str (s3Uri bucket key)) := by
  unfold process_single_document invoke_document_processing
  dsimp only
  cases hsub : client.submit (s3Uri bucket key) with
  | error e => rfl
  | ok arn =>
    dsimp only
    cases hw : wait_for_job_completion
        (client.steps (asStr (rget [("invocationArn", .str arn),
          ("s3_uri", .str (s3Uri bucket key)), ("status", .str "submitted")] "invocationArn")))
        poll_interval timeout with
    | success resp polls => exact rget_rset _ _ _
    | failed m polls => rfl
    | timedOut polls elapsed => rfl
    | outOfFuel polls => rfl

/-- Claim C1: for every document list, every positive concurrency limit and
positive poll interval, and every completion order the thread pool may deliver
(any permutation of the input), the batch dispatcher produces exactly one
outcome record per input document — whatever path each document took,
including a submission error, a poll failure, a timeout, or an unexpected
worker exception (the `defect` oracle) — and the records' source URIs are, as
a multiset, exactly the input documents' URIs, so each record is attributable
to a distinct input document. -/
theorem claim_C1 (client : RuntimeClient) (poll_interval timeout batch_size : Nat)
    (bucket : String) (documents completionOrder : List String)
    (defect : String → Option String)
    (hC : 0 < batch_size) (hi : 0 < poll_interval)
    (hperm : completionOrder.Perm documents) :
    (process_documents_batch batch_size bucket
        (pipelineWorker client poll_interval timeout bucket defect)
        completionOrder).length = documents.length ∧
    ((process_documents_batch batch_size bucket
        (pipelineWorker client poll_interval timeout bucket defect)
        completionOrder).map (fun r => rget r "s3_uri")).Perm
      (documents.map (fun key => some (.str (s3Uri bucket key)))) := by
  have _ := hC
  have _ := hi
  constructor
  · simpa [process_documents_batch] using hperm.length_eq
  · have hmap : (process_documents_batch batch_size bucket
        (pipelineWorker client poll_interval timeout bucket defect)
        completionOrder).map (fun r => rget r "s3_uri")
        = completionOrder.map (fun key => some (.str (s3Uri bucket key))) := by
      simp only [process_documents_batch, List.map_map]
      apply List.map_congr_left
      intro key _
      cases hd : defect key with
      | some e =>
        simp [Function.comp, pipelineWorker, hd, workerErrorRecord, rget, List.find?]
      | none =>
        simpa [Function.comp, pipelineWorker, hd] using
          worker_s3_uri client poll_interval timeout bucket key
    rw [hmap]
    exact hperm.map _

/-- Witness for claim C1 at the three-document scenario client, identity
completion order, no worker defects. -/
theorem claim_C1_witness :
    c6results.length = (["docs/d1.pdf", "docs/d2.pdf", "docs/d3.pdf"] : List String).length ∧
    (c6results.map (fun r => rget r "s3_uri")).Perm
      ((["docs/d1.pdf", "docs/d2.pdf", "docs/d3.pdf"] : List String).map
        (fun key => some (.str (s3Uri "b" key)))) :=
  claim_C1 c6client 1 10 2 "b" ["docs/d1.pdf", "docs/d2.pdf", "docs/d3.pdf"]
    ["docs/d1.pdf", "docs/d2.pdf", "docs/d3.pdf"] (fun _ => none)
    (by decide) (by decide) (List.Perm.refl _)

/-- Claim C6: a document whose submission call raises yields the
submission-error outcome immediately — the record carries the error text and
zero status queries are issued, so the poller is never invoked — and one
document's submission failure leaves the other documents' outcomes untouched:
in the three-document scenario where document 2's submission raises, the
exported table has 3 rows, document 2's row has every schema field empty and
an error status with the submission error text, documents 1 and 3 produce
normal success rows, and each of their rows is exactly what a run without
document 2 produces for them. -/
theorem claim_C6 :
    (∀ (client : RuntimeClient) (poll_interval timeout : Nat) (bucket key e : String),
      client.submit (s3Uri bucket key) = .error e →
      process_single_document client poll_interval timeout bucket key =
        (workerErrorRecord (lastComponent key) (s3Uri bucket key) e, 0)) ∧
    c6results.length = 3 ∧
    (export_results_to_csv c6results true).rows.length = 3 ∧
    (∀ f ∈ schemaFields, cellOf (export_results_to_csv c6results true) 1 f = some (.str "")) ∧
    cellOf (export_results_to_csv c6results true) 1 "processing_status" = some (.str "error") ∧
    cellOf (export_results_to_csv c6results true) 1 "error_message" = some (.str "AccessDenied") ∧
    cellOf (export_results_to_csv c6results true) 0 "processing_status" = some (.str "success") ∧
    cellOf (export_results_to_csv c6results true) 2 "processing_status" = some (.str "success") ∧
    c6results.get? 0 = some (process_single_document c6client 1 10 "b" "docs/d1.pdf").1 ∧
    c6results.get? 2 = some (process_single_document c6client 1 10 "b" "docs/d3.pdf").1 ∧
    (process_single_document c6client 1 10 "b" "docs/d2.pdf").2 = 0 := by
  refine ⟨?_, rfl, rfl, ?_, rfl, rfl, rfl, rfl, rfl, rfl, rfl⟩
  · intro client poll_interval timeout bucket key e hsub
    unfold process_single_document invoke_document_processing
    dsimp only
    cases hs : client.submit (s3Uri bucket key) with
    | error e2 =>
      rw [hs] at hsub
      cases hsub
      rfl
    | ok arn =>
      rw [hs] at hsub
      cases hsub
  · intro f hf
    have hcases : f = "SiteOnForm" ∨ f = "NameOnForm" ∨ f = "LogoOnForm" ∨
        f = "EmailOnForm" ∨ f = "PhoneOnForm" ∨ f = "AddressOnForm" ∨
        f = "SignatureOnForm" ∨ f = "LOB" ∨ f = "State" ∨ f = "Language" := by
      simpa [schemaFields] using hf
    rcases hcases with rfl | rfl | rfl | rfl | rfl | rfl | rfl | rfl | rfl | rfl <;> rfl

/-- Witness for the quantified parts of claim C6, at the concrete scenario's
failing document. -/
theorem claim_C6_witness :
    c6client.submit (s3Uri "b" "docs/d2.pdf") = .error "AccessDenied" ∧
    process_single_document c6client 1 10 "b" "docs/d2.pdf" =
      (workerErrorRecord (lastComponent "docs/d2.pdf") (s3Uri "b" "docs/d2.pdf")
        "AccessDenied", 0) :=
  ⟨rfl, claim_C6.1 c6client 1 10 "b" "docs/d2.pdf" "AccessDenied" rfl⟩

/-- A column that occurs in a header is found by `colIndex` at a position that
holds it. -/
theorem colIndex_spec (l : List String) (c : String) (h : c ∈ l) :
    ∃ j, colIndex l c = some j ∧ l.get? j = some c := by
  have main : ∀ (l2 : List String), c ∈ l2 → ∀ i : Nat,
      ∃ j, l2.findIdx? (fun x => x = c) i = some (i + j) ∧ l2.get? j = some c := by
    intro l2
    induction l2 with
    | nil => intro h2; cases h2
    | cons hd tl ih =>
      intro h2 i
      by_cases hh : hd = c
      · refine ⟨0, ?_, by simp [hh]⟩
        simp [List.findIdx?_cons, hh]
      · have htl : c ∈ tl := by
          rcases List.mem_cons.mp h2 with h1 | h1
          · exact absurd h1.symm hh
          · exact h1
        obtain ⟨j, h1, h2'⟩ := ih htl (i + 1)
        refine ⟨j + 1, ?_, by simpa using h2'⟩
        rw [List.findIdx?_cons, if_neg (by simp [hh]), h1]
        congr 1
        omega
  obtain ⟨j, h1, h2⟩ := main l h 0
  exact ⟨j, by simpa [colIndex] using h1, h2⟩

/-- The exported header is the base columns followed by exactly those metadata
columns (when metadata is enabled) that occur in at least one record. -/
theorem export_header_eq (results : List Record) (im : Bool) :
    (export_results_to_csv results im).header =
      base_columns ++
        (if im then metadata_columns.filter (fun c => c ∈ dfColumns results) else []) := by
  unfold export_results_to_csv
  dsimp only
  rw [List.filter_append]
  congr 1
  · rw [List.filter_eq_self]
    intro c hc
    by_cases h : c ∈ dfColumns results
    · simp [h]
    · simp [h, hc]
  · cases im with
    | false => simp
    | true =>
      simp only [if_pos]
      apply List.filter_congr
      intro c hc
      have hnb : c ∉ base_columns := by
        have hc4 : c = "s3_uri" ∨ c = "processing_status" ∨ c = "error_message" ∨
            c = "output_s3_uri" := by simpa [metadata_columns] using hc
        rcases hc4 with rfl | rfl | rfl | rfl <;> decide
      by_cases h : c ∈ dfColumns results
      · simp [h]
      · simp [h, hnb]

/-- Every exported row is the full header evaluated on its record, missing or
`None` values becoming the empty string. -/
theorem export_row_eq (results : List Record) (im : Bool) (i : Nat) (r : Record)
    (hres : results.get? i = some r) :
    (export_results_to_csv results im).rows.get? i =
      some ((export_results_to_csv results im).header.map (fun c =>
        match rget r c with
        | some .null => PyVal.str ""
        | some v => v
        | none => PyVal.str "")) := by
  unfold export_results_to_csv
  dsimp only
  rw [List.get?_map, hres]
  rfl

/-- Counterexample for claim C10: exporting a single successful record (which
has no error message) with metadata enabled yields a header that is not the
schema columns followed by all four metadata columns — the error-message
column is dropped because no record carries it. -/
theorem claim_C10_counterexample :
    (export_results_to_csv [c10record] true).header ≠ base_columns ++ metadata_columns ∧
    "error_message" ∉ (export_results_to_csv [c10record] true).header := by
  constructor
  · decide
  · decide

/-- Claim C10, amended: the exported header is the schema (base) columns
followed, when metadata is enabled, by exactly those metadata columns that
occur in at least one record — a metadata column absent from every record is
dropped rather than kept fixed; the schema columns themselves are always all
present; there is one row per record; and within each row every schema column
is populated, defaulting to the empty string when the field is absent from
(or `None` in) the underlying record and carrying the record's value
otherwise. -/
theorem claim_C10 :
    (∀ (results : List Record) (im : Bool),
      (export_results_to_csv results im).header =
        base_columns ++
          (if im then metadata_columns.filter (fun c => c ∈ dfColumns results) else [])) ∧
    (∀ (results : List Record) (im : Bool) (c : String), c ∈ base_columns →
      c ∈ (export_results_to_csv results im).header) ∧
    (∀ (results : List Record) (im : Bool),
      (export_results_to_csv results im).rows.length = results.length) ∧
    (∀ (results : List Record) (im : Bool) (i : Nat) (r : Record) (c : String),
      results.get? i = some r → c ∈ base_columns →
      (rget r c = none → cellOf (export_results_to_csv results im) i c = some (.str "")) ∧
      (rget r c = some .null → cellOf (export_results_to_csv results im) i c = some (.str "")) ∧
      (∀ v, rget r c = some v → v ≠ .null →
        cellOf (export_results_to_csv results im) i c = some v)) := by
  refine ⟨export_header_eq, ?_, ?_, ?_⟩
  · intro results im c hc
    rw [export_header_eq]
    exact List.mem_append_left _ hc
  · intro results im
    simp [export_results_to_csv]
  · intro results im i r c hres hc
    have hmem : c ∈ (export_results_to_csv results im).header := by
      rw [export_header_eq]
      exact List.mem_append_left _ hc
    obtain ⟨j, hj1, hj2⟩ := colIndex_spec _ c hmem
    have hcell : cellOf (export_results_to_csv results im) i c =
        some (match rget r c with
          | some .null => PyVal.str ""
          | some v => v
          | none => PyVal.str "") := by
      unfold cellOf
      rw [export_row_eq results im i r hres, hj1]
      simp only [Option.some_bind]
      rw [List.get?_map, hj2]
      rfl
    refine ⟨fun hn => ?_, fun hn => ?_, fun v hv hne => ?_⟩
    · rw [hcell, hn]
    · rw [hcell, hn]
    · rw [hcell, hv]
      cases v with
      | null => exact absurd rfl hne
      | str s => rfl
      | int n => rfl
      | bool b => rfl
      | list xs => rfl
      | dict m => rfl

/-- Witness for the quantified parts of claim C10 at the single-record table:
the LOB schema cell of the one row is the empty string. -/
theorem claim_C10_witness :
    cellOf (export_results_to_csv [c10record] true) 0 "LOB" = some (.str "") :=
  (claim_C10.2.2.2 [c10record] true 0 c10record "LOB" rfl (by decide)).2.2
    (.str "") rfl (fun h => PyVal.noConfusion h)
